import Mathlib

/-!
Formal model of the transaction-CSV KPI/alert pipeline in `src/app.py`:
the normalizer (`normalize_df`), the aggregator and alert engine
(`compute_kpis_and_alerts`), and the delimited-text parser used by the
upload handler.  Machine floats are modelled by exact rationals (all
decimal inputs are exact in `ℚ`); the sample standard deviation, the
only irrational quantity, is modelled as a real square root.
-/

set_option maxRecDepth 100000

deriving instance DecidableEq for Except

/-- Python `str.strip` whitespace test (`Char.isWhitespace` covers the
ASCII whitespace stripped by Python on the inputs modelled here). -/
def isWsC (c : Char) : Bool := c.isWhitespace

/-- Leading-whitespace removal, on character lists. -/
def stripLead (l : List Char) : List Char := l.dropWhile isWsC

/-- Trailing-whitespace removal, on character lists. -/
def stripTrail (l : List Char) : List Char := (l.reverse.dropWhile isWsC).reverse

/-- Python `str.strip`, on character lists. -/
def pyStripL (l : List Char) : List Char := stripTrail (stripLead l)

/-- Python `str.strip` (`.strip()` in `app.py` lines 13 and 45). -/
def pyStrip (s : String) : String := String.mk (pyStripL s.data)

/-- Split a character list on a separator character (used for the decimal
point of numeric cells and for CSV fields). -/
def splitOnChar (sep : Char) : List Char → List (List Char)
  | [] => [[]]
  | c :: t =>
    if c = sep then [] :: splitOnChar sep t
    else
      match splitOnChar sep t with
      | [] => [[c]]
      | h :: r => (c :: h) :: r

/-- Decimal value of a digit list. -/
def digitsToNat (l : List Char) : ℕ := l.foldl (fun n c => n * 10 + (c.toNat - 48)) 0

/-- Check that every character is a decimal digit. -/
def allDigits (l : List Char) : Bool := l.all (·.isDigit)

/-- Split an optional leading sign from a character list; the Bool is
true for a leading minus sign. -/
def parseSignedParts : List Char → Bool × List Char
  | '-' :: t => (true, t)
  | '+' :: t => (false, t)
  | l => (false, l)

/-- Numeric parsing as performed by `pd.to_numeric(errors="coerce")` on a
string cell (`app.py` line 52), restricted to the plain-decimal fragment:
optional surrounding whitespace, an optional sign, digits with at most one
decimal point (at least one digit overall).  Anything else — including a
string with two decimal points, as produced by `"1.234,56"` after comma
replacement — coerces to null. -/
def parseNumber (s : String) : Option ℚ :=
  let p := parseSignedParts (pyStripL s.data)
  let val? : Option ℚ :=
    match splitOnChar '.' p.2 with
    | [a] => if a.isEmpty || !allDigits a then none else some (mkRat (digitsToNat a) 1)
    | [a, b] =>
      if (a.isEmpty && b.isEmpty) || !allDigits a || !allDigits b then none
      else some (mkRat (digitsToNat a * 10 ^ b.length + digitsToNat b) (10 ^ b.length))
    | _ => none
  val?.map fun q => if p.1 then -q else q

/-- The comma-to-dot substitution `str.replace(",", ".")` of `app.py`
line 51; Python `str.replace` replaces every occurrence. -/
def commaToDot (s : String) : String :=
  String.mk (s.data.map fun c => if c = ',' then '.' else c)

/-- A calendar date as produced by `pd.to_datetime(...).dt.date`. -/
structure Date where
  year : ℕ
  month : ℕ
  day : ℕ
deriving DecidableEq

/-- Numeric sort key of a date (dates are compared chronologically). -/
def dateKey (d : Date) : ℕ := d.year * 10000 + d.month * 100 + d.day

/-- Date parsing as performed by `pd.to_datetime(errors="coerce")` on a
string cell (`app.py` line 48), restricted to the ISO `year-month-day`
fragment with surrounding whitespace tolerated; out-of-range months or
days, or any other shape, coerce to null. -/
def parseDateStr (s : String) : Option Date :=
  match splitOnChar '-' (pyStripL s.data) with
  | [ys, ms, ds] =>
    if ys.isEmpty || ms.isEmpty || ds.isEmpty
        || !allDigits ys || !allDigits ms || !allDigits ds then none
    else
      let m := digitsToNat ms
      let d := digitsToNat ds
      if 1 ≤ m ∧ m ≤ 12 ∧ 1 ≤ d ∧ d ≤ 31 then some ⟨digitsToNat ys, m, d⟩
      else none
  | _ => none

/-- Zero-pad a number to two digits. -/
def pad2 (n : ℕ) : String := if n < 10 then "0" ++ Nat.repr n else Nat.repr n

/-- Zero-pad a number to four digits. -/
def pad4 (n : ℕ) : String :=
  if n < 10 then "000" ++ Nat.repr n
  else if n < 100 then "00" ++ Nat.repr n
  else if n < 1000 then "0" ++ Nat.repr n
  else Nat.repr n

/-- Python `str` of a date: the ISO `YYYY-MM-DD` rendering. -/
def dateToStr (d : Date) : String := pad4 d.year ++ "-" ++ pad2 d.month ++ "-" ++ pad2 d.day

/-- Smallest decimal exponent clearing the denominator (floats always have
a power-of-two denominator, so the bounded search always succeeds on the
values a cell can hold). -/
def ratDecExp (q : ℚ) : ℕ := ((List.range 1100).find? fun k => q.den ∣ 10 ^ k).getD 0

/-- Python `str` of a float value, as a decimal numeral (used only for the
`astype(str)` cast of numeric cells). -/
def ratRepr (q : ℚ) : String :=
  let k := ratDecExp q
  let n := (q * (10 : ℚ) ^ k).num
  let sign := if n < 0 then "-" else ""
  let a := n.natAbs
  if k = 0 then sign ++ Nat.repr a ++ ".0"
  else
    let digits := Nat.repr a
    let padded :=
      if digits.length ≤ k then String.mk (List.replicate (k + 1 - digits.length) '0') ++ digits
      else digits
    sign ++ String.mk (padded.data.take (padded.length - k)) ++ "."
      ++ String.mk (padded.data.drop (padded.length - k))

/-- A raw table cell: a text field from the CSV, a numeric value, a date
value, or a missing entry (`NaN`). -/
inductive Cell where
  | str (s : String)
  | num (q : ℚ)
  | date (d : Date)
  | null
deriving DecidableEq

/-- Python `str` of a cell, as produced by `astype(str)`: missing entries
render as the string `"nan"`. -/
def pyStr : Cell → String
  | .str s => s
  | .num q => ratRepr q
  | .date d => dateToStr d
  | .null => "nan"

/-- Date coercion of a cell (`app.py` line 48): string cells go through
permissive parsing, date cells pass through unchanged, missing entries
coerce to null.  Numeric cells (whose epoch-nanosecond reading is outside
the modelled fragment) also coerce to null. -/
def toDate : Cell → Option Date
  | .str s => parseDateStr s
  | .date d => some d
  | _ => none

/-- Amount coercion of a cell (`app.py` lines 51-52): cast to text, replace
every comma by a dot, then numeric parsing with null on failure.  A numeric
cell round-trips through its decimal rendering (Python float repr
round-trips and contains no comma), so it coerces to itself. -/
def toAmountCell : Cell → Option ℚ
  | .num q => some q
  | c => parseNumber (commaToDot (pyStr c))

/-- Customer coercion of a cell (`app.py` line 45): `astype(str)` followed
by `.str.strip()`.  This is total — even a missing entry becomes the
string `"nan"` — so the customer column never holds a null. -/
def toCustomerStr (c : Cell) : String := pyStrip (pyStr c)

/-- A canonical row after normalization. -/
structure Row where
  date : Date
  amount : ℚ
  customer_id : String
deriving DecidableEq

/-- A raw table: header list plus rows of cells, aligned by position. -/
structure RawDF where
  cols : List String
  rows : List (List Cell)
deriving DecidableEq

/-- Recognized aliases of the `date` field (`app.py` line 17). -/
def dateAliases : List String := ["date", "jour", "transaction_date"]

/-- Recognized aliases of the `amount` field (`app.py` line 18). -/
def amountAliases : List String := ["amount", "montant", "price", "total"]

/-- Recognized aliases of the `customer_id` field (`app.py` line 19). -/
def customerAliases : List String := ["customer_id", "client", "customer", "client_id"]

/-- Python `str.lower`, character by character. -/
def pyLower (s : String) : String := String.mk (s.data.map Char.toLower)

/-- Header cleanup (`app.py` line 13): strip and lower-case every header. -/
def cleanCols (cols : List String) : List String := cols.map fun c => pyLower (pyStrip c)

/-- First alias (in priority order) present among the headers (`app.py`
lines 23-27). -/
def findAlias (cols variants : List String) : Option String :=
  variants.find? fun v => cols.contains v

/-- Position of the column a field group binds to: the first occurrence of
the first matching alias. -/
def resolveIdx (cols variants : List String) : Option ℕ :=
  (findAlias cols variants).bind fun v => cols.findIdx? (· == v)

/-- The alias table of `app.py` lines 16-20, with its insertion order. -/
def columnMap : List (String × List String) :=
  [("date", dateAliases), ("amount", amountAliases), ("customer_id", customerAliases)]

/-- The field groups with no matching header (`app.py` line 29). -/
def missingGroups (cols : List String) : List String :=
  (columnMap.filter fun p => (findAlias cols p.2).isNone).map fun p => p.1

/-- An ASCII apostrophe, as used by the Python list repr in the error
message. -/
def apos : String := (Char.ofNat 39).toString

/-- Python `repr` of a list of strings, as interpolated into the error
message by `app.py` line 33. -/
def pyListRepr (cols : List String) : String :=
  "[" ++ String.intercalate ", " (cols.map fun c => apos ++ c ++ apos) ++ "]"

/-- Fixed head of the schema error message (`app.py` lines 32-33). -/
def errHead : String := "Colonnes non reconnues.\n\nColonnes trouvées dans ton CSV : "

/-- Fixed tail of the schema error message (`app.py` lines 34-38): the
expected field groups with their aliases, and the corrective hint.  It is
the same constant whichever group is missing. -/
def errTail : String :=
  "\n\n👉 Colonnes attendues (au moins une par groupe) :\n- date : date, jour, transaction_date\n- amount : amount, montant, price, total\n- customer : customer_id, client, customer, client_id\n\n✅ Astuce: renomme tes colonnes dans Excel pour matcher une des variantes ci-dessus."

/-- The schema error message raised by `app.py` lines 31-39. -/
def errMsg (cols : List String) : String := errHead ++ pyListRepr cols ++ errTail

/-- Cell of a row at a column position; a short row reads as missing
entries, as pandas pads short records with `NaN`. -/
def cellAt (r : List Cell) (i : ℕ) : Cell := r.getD i Cell.null

/-- Row-level cleaning (`app.py` lines 45-56) for resolved column positions
`di`, `ai`, `ci`: coerce the three fields, drop the row if date or amount
coerces to null (the customer coercion is total, line 45 precedes the
`dropna`) or if the amount is exactly zero. -/
def cleanRow (di ai ci : ℕ) (r : List Cell) : Option Row :=
  match toDate (cellAt r di), toAmountCell (cellAt r ai) with
  | some d, some a =>
    if a = 0 then none else some ⟨d, a, toCustomerStr (cellAt r ci)⟩
  | _, _ => none

/-- The normalizer of `app.py` lines 11-58, restricted to the three
canonical fields consumed downstream (extraneous columns are retained by
the source but play no further role): clean the headers, resolve each field
group to its first matching alias, fail with the schema error if any group
is unmatched, otherwise coerce and filter the rows. -/
def normalize_df (df : RawDF) : Except String (List Row) :=
  match resolveIdx (cleanCols df.cols) dateAliases, resolveIdx (cleanCols df.cols) amountAliases,
      resolveIdx (cleanCols df.cols) customerAliases with
  | some di, some ai, some ci => .ok (df.rows.filterMap (cleanRow di ai ci))
  | _, _, _ => .error (errMsg (cleanCols df.cols))

example : parseNumber "19.99" = some (mkRat 1999 100) := by decide
example : parseNumber "1.234.56" = none := by decide
example : toAmountCell (Cell.str "19,99") = some (mkRat 1999 100) := by decide
example : parseDateStr " 2024-01-02 " = some ⟨2024, 1, 2⟩ := by decide
example :
    normalize_df ⟨["Jour", "Montant", "Client"], [[.str "2024-01-02", .str "19,99", .str " C "]]⟩
      = .ok [⟨⟨2024, 1, 2⟩, mkRat 1999 100, "C"⟩] := by decide
example : normalize_df ⟨["montant", "client"], []⟩ = .error (errMsg ["montant", "client"]) := by
  decide

/-- Distinct elements of a list, keeping first occurrences (the value set
seen by `groupby` / `nunique`). -/
def distinctL {α : Type} [DecidableEq α] (l : List α) : List α :=
  l.foldl (fun acc x => if x ∈ acc then acc else acc ++ [x]) []

/-- Insert a date into a chronologically sorted list. -/
def insertDate (x : Date) : List Date → List Date
  | [] => [x]
  | y :: t => if dateKey x ≤ dateKey y then x :: y :: t else y :: insertDate x t

/-- Sort dates ascending (the `sort_values("date")` of `app.py` line 70). -/
def sortDates (l : List Date) : List Date := l.foldr insertDate []

/-- The distinct dates of the cleaned rows, ascending (the group keys of
`app.py` lines 62-70). -/
def dailyDates (rows : List Row) : List Date := sortDates (distinctL (rows.map Row.date))

/-- The rows of one date group. -/
def dailyGroup (rows : List Row) (d : Date) : List Row :=
  rows.filter fun r => r.date == d

/-- Daily revenue: sum of the group's amounts (`app.py` line 65). -/
def dailyRevenue (rows : List Row) (d : Date) : ℚ :=
  ((dailyGroup rows d).map Row.amount).sum

/-- Daily orders: the group's row count (`app.py` line 66). -/
def dailyOrders (rows : List Row) (d : Date) : ℕ := (dailyGroup rows d).length

/-- Daily customers: the group's distinct customer count (`app.py`
line 67). -/
def dailyCustomers (rows : List Row) (d : Date) : ℕ :=
  (distinctL ((dailyGroup rows d).map Row.customer_id)).length

/-- Round-half-to-even on rationals, the rounding used by `numpy` /
`pandas.round` and by Python float formatting. -/
def roundHalfEven (x : ℚ) : ℤ :=
  if x - (⌊x⌋ : ℚ) = 1 / 2 then (if 2 ∣ ⌊x⌋ then ⌊x⌋ else ⌊x⌋ + 1) else round x

/-- The `.round(2)` of `app.py` line 73. -/
def round2 (x : ℚ) : ℚ := (roundHalfEven (x * 100) : ℚ) / 100

/-- Python `f"{x:.2f}"` formatting of a float value, used in the alert
detail strings. -/
def fmt2 (x : ℚ) : String :=
  let n := roundHalfEven (x * 100)
  let a := n.natAbs
  (if n < 0 then "-" else "") ++ Nat.repr (a / 100) ++ "." ++ pad2 (a % 100)

/-- The trailing window ending at position `i`: the last `min (i+1) 7`
entries of the first `i+1` (the window of `rolling(7)` at row `i`). -/
def window7 (xs : List ℚ) (i : ℕ) : List ℚ := (xs.take (i + 1)).drop (i + 1 - 7)

/-- Arithmetic mean of a list of rationals. -/
def listMean (l : List ℚ) : ℚ := l.sum / (l.length : ℚ)

/-- Sample variance (the `N − 1` denominator) of a list of rationals; the
pandas `.std()` is its square root. -/
def sampleVar (l : List ℚ) : ℚ :=
  ((l.map fun x => (x - listMean l) ^ 2).sum) / ((l.length : ℚ) - 1)

/-- The `rolling(7, min_periods=4).mean()` of `app.py` line 74 at
position `i`: null until the window holds at least 4 observations. -/
def rollingMean7 (xs : List ℚ) (i : ℕ) : Option ℚ :=
  if 4 ≤ (window7 xs i).length then some (listMean (window7 xs i)) else none

/-- Sample variance of the trailing window, under the same minimum-history
gate; the rolling standard deviation is its square root. -/
def rollingVar7 (xs : List ℚ) (i : ℕ) : Option ℚ :=
  if 4 ≤ (window7 xs i).length then some (sampleVar (window7 xs i)) else none

/-- The `rolling(7, min_periods=4).std()` of `app.py` line 75 at
position `i`: the square root of the sample variance of the window. -/
noncomputable def rollingStd7 (xs : List ℚ) (i : ℕ) : Option ℝ :=
  (rollingVar7 xs i).map fun v => Real.sqrt (v : ℝ)

/-- One row of the daily KPI table built by `app.py` lines 62-75. -/
structure DailyRow where
  date : Date
  revenue : ℚ
  orders : ℕ
  customers : ℕ
  aov : ℚ
  rev_ma7 : Option ℚ
  rev_std7 : Option ℝ

/-- The revenue column of the daily table, in date order. -/
def dailyRevs (rows : List Row) : List ℚ := (dailyDates rows).map (dailyRevenue rows)

/-- Placeholder date. -/
def date0 : Date := ⟨0, 0, 0⟩

/-- The daily-table row at position `i` (meaningful for
`i < (dailyDates rows).length`). -/
noncomputable def dailyRowAt (rows : List Row) (i : ℕ) : DailyRow :=
  let d := (dailyDates rows).getD i date0
  { date := d
    revenue := dailyRevenue rows d
    orders := dailyOrders rows d
    customers := dailyCustomers rows d
    aov := round2 (dailyRevenue rows d / (dailyOrders rows d : ℚ))
    rev_ma7 := rollingMean7 (dailyRevs rows) i
    rev_std7 := rollingStd7 (dailyRevs rows) i }

/-- The daily KPI table of `app.py` lines 62-75: one row per distinct
date, ascending, with aov and the two rolling statistics attached. -/
noncomputable def computeDaily (rows : List Row) : List DailyRow :=
  (List.range (dailyDates rows).length).map (dailyRowAt rows)

/-- An alert as built by `app.py` lines 83-103. -/
structure Alert where
  level : String
  title : String
  detail : String
  action : String
deriving DecidableEq

/-- The default OK alert (`app.py` lines 98-103). -/
def okAlert : Alert :=
  { level := "OK"
    title := "Stabilité détectée"
    detail := "Aucune anomalie significative sur le revenu du jour vs tendance récente."
    action := "Ensuite: ajouter Ads + Analytics pour CAC/ROAS." }

/-- The ALERTE alert (`app.py` lines 83-88). -/
def alerteAlert (rev ma : ℚ) : Alert :=
  { level := "ALERTE"
    title := "Baisse anormale du revenu aujourd’hui"
    detail := "Revenu: " ++ fmt2 rev ++ ". Moyenne récente: " ++ fmt2 ma ++ "."
    action := "Vérifie: pubs, conversion, checkout/paiements, incident produit." }

/-- The SURVEILLANCE alert (`app.py` lines 90-95). -/
def surveillanceAlert (rev ma : ℚ) : Alert :=
  { level := "SURVEILLANCE"
    title := "Revenu sous la moyenne récente"
    detail := "Revenu: " ++ fmt2 rev ++ " vs moyenne " ++ fmt2 ma ++ "."
    action := "Contrôle: trafic, taux de conversion, offre, prix." }

/-- The anomaly rules of `app.py` lines 78-95: with at least 4 daily rows,
a last row whose rolling statistics are both present and whose standard
deviation is positive, the z-score decides between ALERTE (z < −2),
SURVEILLANCE (z < −1) and nothing; every other path triggers nothing. -/
noncomputable def triggeredAlerts (daily : List DailyRow) : List Alert :=
  if 4 ≤ daily.length then
    match daily.getLast? with
    | some last =>
      match last.rev_ma7, last.rev_std7 with
      | some ma, some s =>
        if 0 < s then
          if (((last.revenue : ℝ) - (ma : ℝ)) / s) < -2 then [alerteAlert last.revenue ma]
          else if (((last.revenue : ℝ) - (ma : ℝ)) / s) < -1 then
            [surveillanceAlert last.revenue ma]
          else []
        else []
      | _, _ => []
    | none => []
  else []

/-- The alert list of `app.py` lines 77-103: the triggered alerts, or the
default OK alert when nothing triggered. -/
noncomputable def alertsOf (daily : List DailyRow) : List Alert :=
  if (triggeredAlerts daily).isEmpty then [okAlert] else triggeredAlerts daily

/-- A daily-table row as returned to the caller, the date rendered as a
string (`app.py` line 107). -/
structure DailyOut where
  date : String
  revenue : ℚ
  orders : ℕ
  customers : ℕ
  aov : ℚ
  rev_ma7 : Option ℚ
  rev_std7 : Option ℝ

/-- Rendering of a daily row for the returned table. -/
def toDailyOut (d : DailyRow) : DailyOut :=
  ⟨dateToStr d.date, d.revenue, d.orders, d.customers, d.aov, d.rev_ma7, d.rev_std7⟩

/-- The aggregator/alert stage of `app.py` lines 61-109: the last-14-days
table, the most recent day's record (absent when no data survived
cleaning), and the alerts. -/
noncomputable def compute_kpis_and_alerts (rows : List Row) :
    List DailyOut × Option DailyRow × List Alert :=
  let daily := computeDaily rows
  ((daily.drop (daily.length - 14)).map toDailyOut, daily.getLast?, alertsOf daily)

/-- The core pipeline consumed by the upload handler (`app.py`
lines 130-131): normalize, then aggregate and evaluate alerts. -/
noncomputable def processDF (df : RawDF) :
    Except String (List DailyOut × Option DailyRow × List Alert) :=
  (normalize_df df).map compute_kpis_and_alerts

/-- Alert level prescribed by the specification, stated in the
specification's own terms: with the precondition (at least 4 days, both
rolling statistics non-null, positive standard deviation) satisfied,
ALERTE when z < −2, SURVEILLANCE when −2 ≤ z < −1, and OK otherwise,
including every precondition-failure path. -/
noncomputable def specAlertLevel (daily : List DailyRow) : String :=
  match daily.getLast? with
  | none => "OK"
  | some last =>
    if 4 ≤ daily.length then
      match last.rev_ma7, last.rev_std7 with
      | some ma, some s =>
        if 0 < s then
          if (((last.revenue : ℝ) - (ma : ℝ)) / s) < -2 then "ALERTE"
          else if (-2 : ℝ) ≤ ((last.revenue : ℝ) - (ma : ℝ)) / s
              ∧ (((last.revenue : ℝ) - (ma : ℝ)) / s) < -1 then "SURVEILLANCE"
          else "OK"
        else "OK"
      | _, _ => "OK"
    else "OK"

/-- Strip a single leading UTF-8 byte-order mark from decoded text, as
the pandas CSV reader does before interpreting the first header. -/
def stripBomL (l : List Char) : List Char :=
  match l with
  | c :: t => if c = '﻿' then t else c :: t
  | [] => []

/-- Split decoded text into lines, treating CR LF, lone CR and lone LF
all as line terminators (universal-newline reading). -/
def splitLines : List Char → List (List Char)
  | [] => [[]]
  | '\r' :: '\n' :: t => [] :: splitLines t
  | '\r' :: t => [] :: splitLines t
  | '\n' :: t => [] :: splitLines t
  | c :: t =>
    match splitLines t with
    | [] => [[c]]
    | h :: r => (c :: h) :: r

/-- Delimiter detection of `app.py` lines 124-128 (`sep=None` sniffing with
a semicolon fallback), modelled as first-line occurrence among comma,
semicolon and tab, falling back to the semicolon. -/
def detectSep (header : List Char) : Char :=
  if header.contains ',' then ','
  else if header.contains ';' then ';'
  else if header.contains '\t' then '\t'
  else ';'

/-- The delimited-text parser behind `pd.read_csv` in `app.py`
lines 119-128: strip a leading BOM, split lines (skipping blank ones),
detect the delimiter on the header line, split every line on it.  Cells
are kept as text; the normalizer casts every cell through text anyway, so
the reader's column type inference is immaterial here. -/
def parseLinesL (l : List Char) : RawDF :=
  let lines := (splitLines l).filter fun ln => !ln.isEmpty
  match lines with
  | [] => ⟨[], []⟩
  | h :: t =>
    let sep := detectSep h
    ⟨(splitOnChar sep h).map String.mk,
     t.map fun ln => (splitOnChar sep ln).map fun cs => Cell.str (String.mk cs)⟩

/-- The parser on decoded characters: strip a leading BOM, then read the
delimited lines. -/
def parseCSVL (l : List Char) : RawDF := parseLinesL (stripBomL l)

/-- The parser on a decoded string. -/
def parseCSV (s : String) : RawDF := parseCSVL s.data

/-- The whole upload pipeline on decoded text: parse, normalize,
aggregate, alert. -/
noncomputable def processCSV (s : String) :
    Except String (List DailyOut × Option DailyRow × List Alert) :=
  processDF (parseCSV s)

/-- Re-wrap a canonical row table as a raw table (the normalizer's output
viewed as input again: typed date, numeric and text cells under the three
canonical headers). -/
def canonDF (out : List Row) : RawDF :=
  ⟨["date", "amount", "customer_id"],
   out.map fun r => [Cell.date r.date, Cell.num r.amount, Cell.str r.customer_id]⟩

/-- Substring containment. -/
def strHas (m pat : String) : Prop := ∃ u v, m = u ++ pat ++ v

/-- Placeholder daily row (the `getD` default; never selected in bounds). -/
def dRow0 : DailyRow := ⟨date0, 0, 0, 0, 0, none, none⟩

/-- The three-row input of the aggregation-correctness test of the
specification. -/
def c6rows : List Row :=
  [⟨⟨2024, 1, 1⟩, 10, "A"⟩, ⟨⟨2024, 1, 1⟩, 5, "B"⟩, ⟨⟨2024, 1, 2⟩, 20, "A"⟩]

/-- A table exercising locale numeric parsing of amounts. -/
def c7df : RawDF :=
  ⟨["date", "amount", "customer_id"],
   [[.str "2024-01-01", .str "19,99", .str "A"],
    [.str "2024-01-02", .str "1.234,56", .str "B"]]⟩

/-- A table whose amount uses a comma as a thousands separator. -/
def c10df : RawDF :=
  ⟨["date", "amount", "customer_id"], [[.str "2024-01-01", .str "1,234", .str "A"]]⟩

/-- Five clean rows on five distinct dates. -/
def c2rows : List Row :=
  [⟨⟨2024, 1, 1⟩, 1, "A"⟩, ⟨⟨2024, 1, 2⟩, 2, "A"⟩, ⟨⟨2024, 1, 3⟩, 3, "A"⟩,
   ⟨⟨2024, 1, 4⟩, 4, "A"⟩, ⟨⟨2024, 1, 5⟩, 5, "A"⟩]

/-- A table missing every alias of the date group. -/
def c3dfA : RawDF := ⟨["montant", "client"], []⟩

/-- A table missing every alias of the amount group. -/
def c3dfB : RawDF := ⟨["date", "client"], []⟩

/-- A table with one clean row, one unparseable date, one unparseable
amount and one zero amount. -/
def c4df : RawDF :=
  ⟨["date", "amount", "customer_id"],
   [[.str "2024-01-01", .str "19,99", .str " A "],
    [.str "02.01.2024x", .str "5", .str "B"],
    [.str "2024-01-03", .str "abc", .str "C"],
    [.str "2024-01-04", .str "0,00", .str "D"]]⟩

/-- The single row of `c4df` surviving the cleaning. -/
def c4out : List Row := [⟨⟨2024, 1, 1⟩, mkRat 1999 100, "A"⟩]

/-- A table whose only row fails date coercion. -/
def c5df : RawDF :=
  ⟨["date", "amount", "customer_id"], [[.str "x", .str "abc", .str "B"]]⟩

/-- An aliased, unpadded table with one clean row. -/
def c8df : RawDF :=
  ⟨["Jour", "Montant", "Client"], [[.str "2024-01-02", .str "19,99", .str " C "]]⟩

/-- The canonical output of `c8df`. -/
def c8out : List Row := [⟨⟨2024, 1, 2⟩, mkRat 1999 100, "C"⟩]

/-- A small delimited-text input with no leading byte-order mark. -/
def c9s : String := "date,amount,customer_id\n2024-01-02,5,A"

/-- An input that itself already begins with a byte-order mark. -/
def c9sB : String := "\uFEFF" ++ c9s

example : dailyDates [⟨⟨2024, 1, 2⟩, 1, "A"⟩, ⟨⟨2024, 1, 1⟩, 1, "B"⟩, ⟨⟨2024, 1, 2⟩, 2, "C"⟩]
    = [⟨2024, 1, 1⟩, ⟨2024, 1, 2⟩] := by decide
example : parseCSV "date,amount\n1,2" = ⟨["date", "amount"], [[.str "1", .str "2"]]⟩ := by decide
example : (parseCSV "﻿a;b\r\nx;y").cols = ["a", "b"] := by decide

theorem dropWhile_idem {α : Type} (p : α → Bool) (l : List α) :
    (l.dropWhile p).dropWhile p = l.dropWhile p := by
  induction l with
  | nil => rfl
  | cons a t ih =>
    by_cases h : p a
    · simp [List.dropWhile_cons, h, ih]
    · simp [List.dropWhile_cons, h]

theorem stripTrail_idem (l : List Char) : stripTrail (stripTrail l) = stripTrail l := by
  unfold stripTrail
  rw [List.reverse_reverse, dropWhile_idem]

theorem stripLead_stripTrail (l : List Char) (h : stripLead l = l) :
    stripLead (stripTrail l) = stripTrail l := by
  cases l with
  | nil => rfl
  | cons a t =>
    have ha : isWsC a = false := by
      by_contra hb
      rw [Bool.not_eq_false] at hb
      have h1 : stripLead (a :: t) = stripLead t := by
        simp [stripLead, List.dropWhile_cons, hb]
      rw [h1] at h
      have h2 : (t.dropWhile isWsC).length ≤ t.length := (List.dropWhile_sublist isWsC).length_le
      rw [show stripLead t = t.dropWhile isWsC from rfl] at h
      rw [h] at h2
      simp at h2
    have hsplit : (a :: t).reverse.takeWhile isWsC ++ (a :: t).reverse.dropWhile isWsC
        = (a :: t).reverse := List.takeWhile_append_dropWhile isWsC (a :: t).reverse
    show stripLead (((a :: t).reverse.dropWhile isWsC).reverse)
        = ((a :: t).reverse.dropWhile isWsC).reverse
    cases hrr : ((a :: t).reverse.dropWhile isWsC).reverse with
    | nil => rfl
    | cons b w =>
      have hba : ((a :: t).reverse.dropWhile isWsC).reverse
          ++ ((a :: t).reverse.takeWhile isWsC).reverse = a :: t := by
        rw [← List.reverse_append, hsplit, List.reverse_reverse]
      rw [hrr] at hba
      have hb : b = a := by
        have h3 := congrArg List.head? hba
        simpa using h3
      rw [hb]
      simp [stripLead, List.dropWhile_cons, ha]

theorem pyStripL_idem (l : List Char) : pyStripL (pyStripL l) = pyStripL l := by
  unfold pyStripL
  rw [stripLead_stripTrail (stripLead l) (dropWhile_idem isWsC l), stripTrail_idem]

theorem pyStrip_idem (s : String) : pyStrip (pyStrip s) = pyStrip s := by
  show String.mk (pyStripL (pyStripL s.data)) = String.mk (pyStripL s.data)
  rw [pyStripL_idem]

theorem filterMap_self {α : Type} (f : α → Option α) (l : List α)
    (h : ∀ x ∈ l, f x = some x) : l.filterMap f = l := by
  induction l with
  | nil => rfl
  | cons a t ih =>
    rw [List.filterMap_cons, h a (List.mem_cons_self a t),
      ih fun x hx => h x (List.mem_cons_of_mem a hx)]

theorem strAppendAssoc (a b c : String) : a ++ b ++ c = a ++ (b ++ c) := by
  cases a with
  | mk la =>
    cases b with
    | mk lb =>
      cases c with
      | mk lc =>
        show String.mk (la ++ lb ++ lc) = String.mk (la ++ (lb ++ lc))
        rw [List.append_assoc]

theorem strHas_concat3 {pre mid suf c1 c2 : String} (p : String)
    (h : suf = c1 ++ (p ++ c2)) : strHas (pre ++ mid ++ suf) p := by
  refine ⟨pre ++ mid ++ c1, c2, ?_⟩
  rw [h]
  simp only [strAppendAssoc]

theorem normalize_ok_inv {df : RawDF} {out : List Row} (h : normalize_df df = .ok out) :
    ∀ r ∈ out, r.amount ≠ 0 ∧ pyStrip r.customer_id = r.customer_id := by
  unfold normalize_df at h
  split at h
  · rename_i di ai ci hdi hai hci
    have hout : df.rows.filterMap (cleanRow di ai ci) = out := by
      cases h
      rfl
    intro r hr
    rw [← hout, List.mem_filterMap] at hr
    obtain ⟨raw, _, hclean⟩ := hr
    unfold cleanRow at hclean
    split at hclean
    · rename_i d a hd ha
      split at hclean
      · cases hclean
      · rename_i haz
        cases hclean
        refine ⟨haz, ?_⟩
        show pyStrip (toCustomerStr (cellAt raw ci)) = _
        exact pyStrip_idem _
    · cases hclean
  · cases h

/-- C7.  Amount coercion treats the cell as text, replaces the comma with
a decimal point, then parses: `"19,99"` parses to 19.99, while
`"1.234,56"` (two decimal points after replacement) fails to parse, and a
row carrying it is excluded from the normalized table. -/
theorem locale_amount_parsing :
    toAmountCell (Cell.str "19,99") = some (19.99 : ℚ)
    ∧ toAmountCell (Cell.str "1.234,56") = none
    ∧ normalize_df c7df = .ok [⟨⟨2024, 1, 1⟩, (19.99 : ℚ), "A"⟩] := by
  have h : (19.99 : ℚ) = mkRat 1999 100 := by norm_num [mkRat, Rat.normalize]
  refine ⟨?_, by decide, ?_⟩
  · rw [h]; decide
  · rw [h]; decide

/-- C10.  The comma replacement is global, not restricted to a single
decimal comma: `"1,234"` becomes `"1.234"` and parses to the fractional
number 1.234 (not the integer 1234 a thousands separator would denote),
surviving normalization with that silently changed magnitude; a string
still non-numeric after the global replacement becomes null. -/
theorem comma_replacement_global :
    commaToDot "1,234" = "1.234"
    ∧ toAmountCell (Cell.str "1,234") = some (1.234 : ℚ)
    ∧ (1.234 : ℚ) ≠ 1234
    ∧ (∀ s : String, toAmountCell (Cell.str s) = parseNumber (commaToDot s))
    ∧ toAmountCell (Cell.str "1,2,3") = none
    ∧ normalize_df c10df = .ok [⟨⟨2024, 1, 1⟩, (1.234 : ℚ), "A"⟩] := by
  have h : (1.234 : ℚ) = mkRat 617 500 := by norm_num [mkRat, Rat.normalize]
  refine ⟨by decide, ?_, by norm_num, fun s => rfl, by decide, ?_⟩
  · rw [h]; decide
  · rw [h]; decide

/-- C5.  An input whose rows are all dropped by cleaning still flows
through aggregation and alerting without failure: empty daily table, no
"today" record, and exactly the single default OK alert. -/
theorem empty_after_clean (df : RawDF) (h : normalize_df df = .ok []) :
    processDF df = .ok ([], none, [okAlert]) := by
  unfold processDF
  rw [h]
  rfl

/-- Witness for C5 at a concrete one-row input failing date coercion. -/
theorem empty_after_clean_witness :
    normalize_df c5df = .ok [] ∧ processDF c5df = .ok ([], none, [okAlert]) :=
  ⟨by decide, empty_after_clean c5df (by decide)⟩

/-- C8.  Normalization is idempotent on its own output: feeding the
canonical table back through the normalizer returns exactly the same
canonical rows, dropping nothing and changing no values. -/
theorem normalizer_idempotent (df : RawDF) (out : List Row)
    (h : normalize_df df = .ok out) :
    normalize_df (canonDF out) = .ok out := by
  have inv := normalize_ok_inv h
  have hred : normalize_df (canonDF out)
      = .ok ((out.map fun r =>
          [Cell.date r.date, Cell.num r.amount, Cell.str r.customer_id]).filterMap
            (cleanRow 0 1 2)) := rfl
  rw [hred, List.filterMap_map]
  refine congrArg Except.ok (filterMap_self _ out fun r hr => ?_)
  obtain ⟨ha, hc⟩ := inv r hr
  show cleanRow 0 1 2 [Cell.date r.date, Cell.num r.amount, Cell.str r.customer_id] = some r
  show (if r.amount = 0 then none
      else some ⟨r.date, r.amount, toCustomerStr (Cell.str r.customer_id)⟩) = some r
  rw [if_neg ha]
  show some (⟨r.date, r.amount, pyStrip r.customer_id⟩ : Row) = some r
  rw [hc]

/-- Witness for C8 at a concrete aliased input. -/
theorem normalizer_idempotent_witness :
    normalize_df c8df = .ok c8out ∧ normalize_df (canonDF c8out) = .ok c8out :=
  ⟨by decide, normalizer_idempotent c8df c8out (by decide)⟩

/-- C4.  Row survival: the normalizer keeps exactly the rows whose date
and amount coerce successfully (the customer coercion is total) and whose
amount is non-zero, so every canonical row reaching the aggregator has
all three fields present and a non-zero amount. -/
theorem row_survival (df : RawDF) (out : List Row) (h : normalize_df df = .ok out) :
    (∀ r ∈ out, r.amount ≠ 0) ∧
    ∃ di ai ci,
      resolveIdx (cleanCols df.cols) dateAliases = some di
      ∧ resolveIdx (cleanCols df.cols) amountAliases = some ai
      ∧ resolveIdx (cleanCols df.cols) customerAliases = some ci
      ∧ out = df.rows.filterMap (cleanRow di ai ci)
      ∧ ∀ raw : List Cell,
          cleanRow di ai ci raw = none ↔
            toDate (cellAt raw di) = none
            ∨ toAmountCell (cellAt raw ai) = none
            ∨ toAmountCell (cellAt raw ai) = some 0 := by
  refine ⟨fun r hr => (normalize_ok_inv h r hr).1, ?_⟩
  unfold normalize_df at h
  split at h
  · rename_i di ai ci hdi hai hci
    refine ⟨di, ai, ci, hdi, hai, hci, by cases h; rfl, fun raw => ?_⟩
    constructor
    · intro hnone
      unfold cleanRow at hnone
      split at hnone
      · rename_i d a hd ha
        split at hnone
        · rename_i haz
          exact Or.inr (Or.inr (ha.trans (congrArg some haz)))
        · cases hnone
      · rename_i hcatch
        rcases htd : toDate (cellAt raw di) with _ | d
        · exact Or.inl rfl
        · rcases hta : toAmountCell (cellAt raw ai) with _ | a
          · exact Or.inr (Or.inl rfl)
          · exact (hcatch d a htd hta).elim
    · intro hbad
      rcases hbad with hd | ha | ha0
      · rcases hta : toAmountCell (cellAt raw ai) with _ | a <;>
          simp [cleanRow, hd, hta]
      · rcases htd : toDate (cellAt raw di) with _ | d <;>
          simp [cleanRow, ha, htd]
      · rcases htd : toDate (cellAt raw di) with _ | d <;>
          simp [cleanRow, ha0, htd]
  · cases h

/-- Witness for C4 at a concrete four-row input in which one row is
clean, one fails date coercion, one fails amount coercion and one has a
zero amount. -/
theorem row_survival_witness :
    normalize_df c4df = .ok c4out
    ∧ ((∀ r ∈ c4out, r.amount ≠ 0) ∧
      ∃ di ai ci,
        resolveIdx (cleanCols c4df.cols) dateAliases = some di
        ∧ resolveIdx (cleanCols c4df.cols) amountAliases = some ai
        ∧ resolveIdx (cleanCols c4df.cols) customerAliases = some ci
        ∧ c4out = c4df.rows.filterMap (cleanRow di ai ci)
        ∧ ∀ raw : List Cell,
            cleanRow di ai ci raw = none ↔
              toDate (cellAt raw di) = none
              ∨ toAmountCell (cellAt raw ai) = none
              ∨ toAmountCell (cellAt raw ai) = some 0) :=
  ⟨by decide, row_survival c4df c4out (by decide)⟩

/-- Counterexample to C3 as stated.  The SchemaError text raised when the
date group is missing and the one raised when the amount group is missing
share the identical constant tail `errTail` — they differ only in the
echoed header list — and the missing-date message contains the amount and
customer alias lines in exactly the same `- group : aliases` form as the
date line.  The message therefore does not name exactly the missing
group: it renders all three groups identically whichever one is missing. -/
theorem missing_group_counterexample :
    missingGroups (cleanCols c3dfA.cols) = ["date"]
    ∧ missingGroups (cleanCols c3dfB.cols) = ["amount"]
    ∧ normalize_df c3dfA = .error (errHead ++ pyListRepr ["montant", "client"] ++ errTail)
    ∧ normalize_df c3dfB = .error (errHead ++ pyListRepr ["date", "client"] ++ errTail)
    ∧ strHas (errHead ++ pyListRepr ["montant", "client"] ++ errTail)
        "- date : date, jour, transaction_date"
    ∧ strHas (errHead ++ pyListRepr ["montant", "client"] ++ errTail)
        "- amount : amount, montant, price, total"
    ∧ strHas (errHead ++ pyListRepr ["montant", "client"] ++ errTail)
        "- customer : customer_id, client, customer, client_id" := by
  refine ⟨by decide, by decide, by decide, by decide, ?_, ?_, ?_⟩
  · exact strHas_concat3 "- date : date, jour, transaction_date"
      (by decide :
        errTail = "\n\n👉 Colonnes attendues (au moins une par groupe) :\n"
          ++ ("- date : date, jour, transaction_date"
            ++ "\n- amount : amount, montant, price, total\n- customer : customer_id, client, customer, client_id\n\n✅ Astuce: renomme tes colonnes dans Excel pour matcher une des variantes ci-dessus."))
  · exact strHas_concat3 "- amount : amount, montant, price, total"
      (by decide :
        errTail = "\n\n👉 Colonnes attendues (au moins une par groupe) :\n- date : date, jour, transaction_date\n"
          ++ ("- amount : amount, montant, price, total"
            ++ "\n- customer : customer_id, client, customer, client_id\n\n✅ Astuce: renomme tes colonnes dans Excel pour matcher une des variantes ci-dessus."))
  · exact strHas_concat3 "- customer : customer_id, client, customer, client_id"
      (by decide :
        errTail = "\n\n👉 Colonnes attendues (au moins une par groupe) :\n- date : date, jour, transaction_date\n- amount : amount, montant, price, total\n"
          ++ ("- customer : customer_id, client, customer, client_id"
            ++ "\n\n✅ Astuce: renomme tes colonnes dans Excel pour matcher une des variantes ci-dessus."))

/-- C3 (amended).  When exactly one field group is unmatched, the
Normalizer fails with the SchemaError, whose message lists the cleaned
headers actually found, every expected field group with its aliases, and
the corrective hint — but the message is a fixed template that does not
single out which group is missing. -/
theorem missing_group_error (df : RawDF) (g : String)
    (h : missingGroups (cleanCols df.cols) = [g]) :
    normalize_df df = .error (errMsg (cleanCols df.cols))
    ∧ strHas (errMsg (cleanCols df.cols)) (pyListRepr (cleanCols df.cols))
    ∧ strHas (errMsg (cleanCols df.cols)) "- date : date, jour, transaction_date"
    ∧ strHas (errMsg (cleanCols df.cols)) "- amount : amount, montant, price, total"
    ∧ strHas (errMsg (cleanCols df.cols)) "- customer : customer_id, client, customer, client_id"
    ∧ strHas (errMsg (cleanCols df.cols))
        "✅ Astuce: renomme tes colonnes dans Excel pour matcher une des variantes ci-dessus." := by
  refine ⟨?_, ?_, ?_, ?_, ?_, ?_⟩
  · unfold normalize_df
    split
    · rename_i di ai ci hdi hai hci
      exfalso
      obtain ⟨dv, hdv, -⟩ := Option.bind_eq_some.mp hdi
      obtain ⟨av, hav, -⟩ := Option.bind_eq_some.mp hai
      obtain ⟨cv, hcv, -⟩ := Option.bind_eq_some.mp hci
      simp [missingGroups, columnMap, hdv, hav, hcv] at h
    · rfl
  · exact ⟨errHead, errTail, rfl⟩
  · exact strHas_concat3 "- date : date, jour, transaction_date"
      (by decide :
        errTail = "\n\n👉 Colonnes attendues (au moins une par groupe) :\n"
          ++ ("- date : date, jour, transaction_date"
            ++ "\n- amount : amount, montant, price, total\n- customer : customer_id, client, customer, client_id\n\n✅ Astuce: renomme tes colonnes dans Excel pour matcher une des variantes ci-dessus."))
  · exact strHas_concat3 "- amount : amount, montant, price, total"
      (by decide :
        errTail = "\n\n👉 Colonnes attendues (au moins une par groupe) :\n- date : date, jour, transaction_date\n"
          ++ ("- amount : amount, montant, price, total"
            ++ "\n- customer : customer_id, client, customer, client_id\n\n✅ Astuce: renomme tes colonnes dans Excel pour matcher une des variantes ci-dessus."))
  · exact strHas_concat3 "- customer : customer_id, client, customer, client_id"
      (by decide :
        errTail = "\n\n👉 Colonnes attendues (au moins une par groupe) :\n- date : date, jour, transaction_date\n- amount : amount, montant, price, total\n"
          ++ ("- customer : customer_id, client, customer, client_id"
            ++ "\n\n✅ Astuce: renomme tes colonnes dans Excel pour matcher une des variantes ci-dessus."))
  · exact strHas_concat3
      "✅ Astuce: renomme tes colonnes dans Excel pour matcher une des variantes ci-dessus."
      (by decide :
        errTail = "\n\n👉 Colonnes attendues (au moins une par groupe) :\n- date : date, jour, transaction_date\n- amount : amount, montant, price, total\n- customer : customer_id, client, customer, client_id\n\n"
          ++ ("✅ Astuce: renomme tes colonnes dans Excel pour matcher une des variantes ci-dessus."
            ++ ""))

/-- Witness for C3 (amended) at the concrete table missing the date
group. -/
theorem missing_group_error_witness :
    missingGroups (cleanCols c3dfA.cols) = ["date"]
    ∧ (normalize_df c3dfA = .error (errMsg (cleanCols c3dfA.cols))
      ∧ strHas (errMsg (cleanCols c3dfA.cols)) (pyListRepr (cleanCols c3dfA.cols))
      ∧ strHas (errMsg (cleanCols c3dfA.cols)) "- date : date, jour, transaction_date"
      ∧ strHas (errMsg (cleanCols c3dfA.cols)) "- amount : amount, montant, price, total"
      ∧ strHas (errMsg (cleanCols c3dfA.cols))
          "- customer : customer_id, client, customer, client_id"
      ∧ strHas (errMsg (cleanCols c3dfA.cols))
          "✅ Astuce: renomme tes colonnes dans Excel pour matcher une des variantes ci-dessus.") :=
  ⟨by decide, missing_group_error c3dfA "date" (by decide)⟩

/-- Counterexample to C9 as stated.  On an input that already begins with
a byte-order mark, prefixing one more BOM changes the parsed header list
(the reader strips a single BOM, so the second survives into the first
header) and turns a successful normalization into a SchemaError. -/
theorem bom_prefix_counterexample :
    (parseCSV ("﻿" ++ c9sB)).cols ≠ (parseCSV c9sB).cols
    ∧ (normalize_df (parseCSV c9sB)).isOk = true
    ∧ (normalize_df (parseCSV ("﻿" ++ c9sB))).isOk = false := by
  refine ⟨by decide, by decide, by decide⟩

/-- C9 (amended).  For every decoded input that does not itself begin
with a byte-order mark, prefixing a BOM changes neither the parsed table
(in particular the header list) nor the pipeline result. -/
theorem bom_tolerance (s : String) (h : s.data.head? ≠ some '﻿') :
    parseCSV ("﻿" ++ s) = parseCSV s
    ∧ (parseCSV ("﻿" ++ s)).cols = (parseCSV s).cols
    ∧ processCSV ("﻿" ++ s) = processCSV s := by
  have hdata : ("﻿" ++ s).data = '﻿' :: s.data := rfl
  have h1 : stripBomL (("﻿" ++ s).data) = s.data := by
    rw [hdata]
    simp [stripBomL]
  have h2 : stripBomL s.data = s.data := by
    cases hd : s.data with
    | nil => rfl
    | cons c t =>
      have hc : ¬c = '﻿' := by
        rw [hd] at h
        simpa using h
      simp [stripBomL, hc]
  have hp : parseCSV ("﻿" ++ s) = parseCSV s := by
    show parseLinesL (stripBomL (("﻿" ++ s).data)) = parseLinesL (stripBomL s.data)
    rw [h1, h2]
  exact ⟨hp, congrArg RawDF.cols hp, congrArg processDF hp⟩

/-- Witness for C9 (amended) at a concrete comma-separated input. -/
theorem bom_tolerance_witness :
    c9s.data.head? ≠ some '﻿'
    ∧ (parseCSV ("﻿" ++ c9s) = parseCSV c9s
      ∧ (parseCSV ("﻿" ++ c9s)).cols = (parseCSV c9s).cols
      ∧ processCSV ("﻿" ++ c9s) = processCSV c9s) :=
  ⟨by decide, bom_tolerance c9s (by decide)⟩

/-- C1.  The Alert Engine emits exactly one alert, whose level is the one
the specification prescribes: evaluated on the most recent day only,
ALERTE when z < −2, SURVEILLANCE when −2 ≤ z < −1, and OK otherwise —
including every precondition-failure path; no other level exists. -/
theorem alert_level_spec (daily : List DailyRow) :
    (alertsOf daily).map Alert.level = [specAlertLevel daily] := by
  unfold alertsOf triggeredAlerts specAlertLevel
  cases hlast : daily.getLast? with
  | none =>
    have hnil : daily = [] := List.getLast?_eq_none_iff.mp hlast
    subst hnil
    simp [okAlert]
  | some last =>
    by_cases h4 : 4 ≤ daily.length
    · simp only [if_pos h4]
      cases hma : last.rev_ma7 with
      | none => simp [okAlert]
      | some ma =>
        cases hstd : last.rev_std7 with
        | none => simp [okAlert]
        | some s =>
          by_cases hs : 0 < s
          · simp only [if_pos hs]
            by_cases h2 : (((last.revenue : ℝ) - (ma : ℝ)) / s) < -2
            · simp [h2, alerteAlert]
            · by_cases h1 : (((last.revenue : ℝ) - (ma : ℝ)) / s) < -1
              · simp [h2, h1, not_lt.mp h2, surveillanceAlert]
              · simp [h2, h1, okAlert]
          · simp [hs, okAlert]
    · simp [h4, okAlert]

/-- C2.  The rolling statistics at each daily-table position are computed
over the trailing window of the up-to-7 most recent existing days (by
position in date order), are null exactly when that window holds fewer
than 4 days, the mean is the window average, and the standard deviation
squares to the sample (N−1 denominator) variance of the window. -/
theorem rolling_window_spec (rows : List Row) (i : ℕ)
    (h : i < (dailyDates rows).length) :
    ((computeDaily rows).getD i dRow0).rev_ma7 = rollingMean7 (dailyRevs rows) i
    ∧ ((computeDaily rows).getD i dRow0).rev_std7 = rollingStd7 (dailyRevs rows) i
    ∧ (window7 (dailyRevs rows) i).length = min (i + 1) 7
    ∧ (rollingMean7 (dailyRevs rows) i = none ↔ min (i + 1) 7 < 4)
    ∧ (∀ v, rollingMean7 (dailyRevs rows) i = some v →
        v * ((min (i + 1) 7 : ℕ) : ℚ) = (window7 (dailyRevs rows) i).sum)
    ∧ (rollingStd7 (dailyRevs rows) i = none ↔ min (i + 1) 7 < 4)
    ∧ ∀ s, rollingStd7 (dailyRevs rows) i = some s →
        0 ≤ s ∧ s ^ 2 * (((min (i + 1) 7 : ℕ) : ℝ) - 1)
          = (((window7 (dailyRevs rows) i).map
              fun x => (x - listMean (window7 (dailyRevs rows) i)) ^ 2).sum : ℚ) := by
  have hi : i < (dailyRevs rows).length := by
    unfold dailyRevs
    rw [List.length_map]
    exact h
  have hwin : (window7 (dailyRevs rows) i).length = min (i + 1) 7 := by
    unfold window7
    rw [List.length_drop, List.length_take]
    omega
  have hlen2 : i < (computeDaily rows).length := by
    unfold computeDaily
    rw [List.length_map, List.length_range]
    exact h
  have hgetD : (computeDaily rows).getD i dRow0 = dailyRowAt rows i := by
    rw [List.getD_eq_getElem _ _ hlen2]
    simp [computeDaily, List.getElem_map, List.getElem_range]
  refine ⟨by rw [hgetD]; rfl, by rw [hgetD]; rfl, hwin, ?_, ?_, ?_, ?_⟩
  · unfold rollingMean7
    rw [hwin]
    by_cases h4 : 4 ≤ min (i + 1) 7
    · rw [if_pos h4]
      exact iff_of_false (by simp) (by omega)
    · rw [if_neg h4]
      exact iff_of_true rfl (by omega)
  · intro v hv
    unfold rollingMean7 at hv
    split at hv
    · rename_i h4
      cases hv
      unfold listMean
      rw [hwin]
      refine div_mul_cancel₀ _ ?_
      have h4' : 4 ≤ min (i + 1) 7 := by rw [← hwin]; exact h4
      exact Nat.cast_ne_zero.mpr (by omega)
    · cases hv
  · unfold rollingStd7 rollingVar7
    rw [hwin]
    by_cases h4 : 4 ≤ min (i + 1) 7
    · rw [if_pos h4]
      exact iff_of_false (by simp) (by omega)
    · rw [if_neg h4]
      exact iff_of_true rfl (by omega)
  · intro s hs
    unfold rollingStd7 at hs
    rcases hv : rollingVar7 (dailyRevs rows) i with _ | v
    · rw [hv] at hs
      cases hs
    · rw [hv] at hs
      have hs2 : some (Real.sqrt ((v : ℚ) : ℝ)) = some s := hs
      injection hs2 with hs'
      subst hs'
      unfold rollingVar7 at hv
      split at hv
      · rename_i h4
        injection hv with hv'
        subst hv'
        have h4' : 4 ≤ min (i + 1) 7 := by rw [← hwin]; exact h4
        have hlen4 : (4 : ℚ) ≤ ((window7 (dailyRevs rows) i).length : ℚ) := by
          exact_mod_cast h4
        have hvar_nonneg : 0 ≤ sampleVar (window7 (dailyRevs rows) i) := by
          unfold sampleVar
          apply div_nonneg
          · apply List.sum_nonneg
            intro x hx
            obtain ⟨y, -, rfl⟩ := List.mem_map.mp hx
            exact sq_nonneg _
          · linarith
        refine ⟨Real.sqrt_nonneg _, ?_⟩
        rw [Real.sq_sqrt (by exact_mod_cast hvar_nonneg)]
        unfold sampleVar
        rw [hwin, Rat.cast_div]
        have hge : (4 : ℝ) ≤ ((min (i + 1) 7 : ℕ) : ℝ) := by exact_mod_cast h4'
        have hcast : ((((min (i + 1) 7 : ℕ) : ℚ) - 1 : ℚ) : ℝ)
            = ((min (i + 1) 7 : ℕ) : ℝ) - 1 := by
          push_cast
          ring
        rw [hcast]
        refine div_mul_cancel₀ _ ?_
        intro h0
        rw [sub_eq_zero] at h0
        linarith
      · cases hv

/-- Witness for C2 at five rows on five distinct dates, position 4. -/
theorem rolling_window_spec_witness :
    4 < (dailyDates c2rows).length
    ∧ (((computeDaily c2rows).getD 4 dRow0).rev_ma7 = rollingMean7 (dailyRevs c2rows) 4
      ∧ ((computeDaily c2rows).getD 4 dRow0).rev_std7 = rollingStd7 (dailyRevs c2rows) 4
      ∧ (window7 (dailyRevs c2rows) 4).length = min (4 + 1) 7
      ∧ (rollingMean7 (dailyRevs c2rows) 4 = none ↔ min (4 + 1) 7 < 4)
      ∧ (∀ v, rollingMean7 (dailyRevs c2rows) 4 = some v →
          v * ((min (4 + 1) 7 : ℕ) : ℚ) = (window7 (dailyRevs c2rows) 4).sum)
      ∧ (rollingStd7 (dailyRevs c2rows) 4 = none ↔ min (4 + 1) 7 < 4)
      ∧ ∀ s, rollingStd7 (dailyRevs c2rows) 4 = some s →
          0 ≤ s ∧ s ^ 2 * (((min (4 + 1) 7 : ℕ) : ℝ) - 1)
            = (((window7 (dailyRevs c2rows) 4).map
                fun x => (x - listMean (window7 (dailyRevs c2rows) 4)) ^ 2).sum : ℚ)) :=
  ⟨by decide, rolling_window_spec c2rows 4 (by decide)⟩

/-- C6.  Aggregation on the three concrete rows of the specification
produces exactly the stated two-day table, with both rolling statistics
null on every row. -/
theorem aggregation_concrete :
    computeDaily c6rows =
      [{ date := ⟨2024, 1, 1⟩, revenue := 15, orders := 2, customers := 2,
         aov := 7.5, rev_ma7 := none, rev_std7 := none },
       { date := ⟨2024, 1, 2⟩, revenue := 20, orders := 1, customers := 1,
         aov := 20, rev_ma7 := none, rev_std7 := none }] := by
  have hrev1 : dailyRevenue c6rows ⟨2024, 1, 1⟩ = 15 := by
    rw [show dailyRevenue c6rows ⟨2024, 1, 1⟩ = ([10, 5] : List ℚ).sum from rfl]
    simp
    norm_num
  have hrev2 : dailyRevenue c6rows ⟨2024, 1, 2⟩ = 20 := by
    rw [show dailyRevenue c6rows ⟨2024, 1, 2⟩ = ([20] : List ℚ).sum from rfl]
    simp
  have h0 : computeDaily c6rows = [dailyRowAt c6rows 0, dailyRowAt c6rows 1] := rfl
  have e0 : dailyRowAt c6rows 0
      = { date := ⟨2024, 1, 1⟩, revenue := 15, orders := 2, customers := 2,
          aov := 7.5, rev_ma7 := none, rev_std7 := none } := by
    show DailyRow.mk ⟨2024, 1, 1⟩ (dailyRevenue c6rows ⟨2024, 1, 1⟩) 2 2
        (round2 (dailyRevenue c6rows ⟨2024, 1, 1⟩ / ((2 : ℕ) : ℚ))) none none = _
    rw [hrev1]
    simp only [DailyRow.mk.injEq, and_true, true_and]
    norm_num [round2, roundHalfEven, round_eq]
  have e1 : dailyRowAt c6rows 1
      = { date := ⟨2024, 1, 2⟩, revenue := 20, orders := 1, customers := 1,
          aov := 20, rev_ma7 := none, rev_std7 := none } := by
    show DailyRow.mk ⟨2024, 1, 2⟩ (dailyRevenue c6rows ⟨2024, 1, 2⟩) 1 1
        (round2 (dailyRevenue c6rows ⟨2024, 1, 2⟩ / ((1 : ℕ) : ℚ))) none none = _
    rw [hrev2]
    simp only [DailyRow.mk.injEq, and_true, true_and]
    norm_num [round2, roundHalfEven, round_eq]
  rw [h0, e0, e1]
